import Mathlib

/-!
Shallow embedding of `src/xl.py`, a thin convenience layer over the
openpyxl spreadsheet library.  Style value objects (Font, PatternFill,
Side, Border, Alignment, Comment) are modelled as Lean structures whose
optional fields default to `none`, matching the underlying library's
constructors, where an argument that is not passed stays at the library
default.  A cell is a record of its value and style attributes, and each
`apply_*` helper becomes a function `Cell → Cell` by explicit state
passing (Python mutates the cell in place).
-/

namespace Xl

/-- openpyxl `Side`: a single border edge descriptor.  Constructor
arguments not supplied are `None` in the library. -/
structure Side where
  style : Option String
  color : Option String
deriving DecidableEq, Repr

/-- openpyxl `Side(style=..., color=...)` constructor with the library's
`None` defaults. -/
def Side.make (style : Option String := none) (color : Option String := none) : Side :=
  ⟨style, color⟩

/-- openpyxl `Border`: four optional edges, all defaulting to `None`. -/
structure Border where
  bottom : Option Side
  left : Option Side
  right : Option Side
  top : Option Side
deriving DecidableEq, Repr

/-- openpyxl `Border(...)` constructor with the library's `None` defaults. -/
def Border.make (bottom : Option Side := none) (left : Option Side := none)
    (right : Option Side := none) (top : Option Side := none) : Border :=
  ⟨bottom, left, right, top⟩

/-- openpyxl `Font`: the fields this module touches; constructor
arguments not supplied stay at the library default `None`. -/
structure Font where
  bold : Option Bool
  color : Option String
  name : Option String
  size : Option Int
deriving DecidableEq, Repr

/-- openpyxl `Font(...)` constructor with the library's `None` defaults. -/
def Font.make (bold : Option Bool := none) (color : Option String := none)
    (name : Option String := none) (size : Option Int := none) : Font :=
  ⟨bold, color, name, size⟩

/-- openpyxl `PatternFill`: start/end colors and a fill type. -/
structure PatternFill where
  start_color : Option String
  end_color : Option String
  fill_type : Option String
deriving DecidableEq, Repr

/-- openpyxl `PatternFill(...)` constructor with the library's `None`
defaults. -/
def PatternFill.make (start_color : Option String := none)
    (end_color : Option String := none) (fill_type : Option String := none) : PatternFill :=
  ⟨start_color, end_color, fill_type⟩

/-- openpyxl `Alignment`: only the horizontal field is used by this
module. -/
structure Alignment where
  horizontal : Option String
deriving DecidableEq, Repr

/-- openpyxl `Alignment(...)` constructor with the library's `None`
default. -/
def Alignment.make (horizontal : Option String := none) : Alignment :=
  ⟨horizontal⟩

/-- openpyxl `Comment(text, author)`. -/
structure Comment where
  text : String
  author : String
deriving DecidableEq, Repr

/-- A cell: its value and the style attributes the module's helpers
assign to.  A fresh cell carries the library defaults. -/
structure Cell where
  value : Option String
  font : Font
  fill : PatternFill
  border : Border
  alignment : Alignment
  comment : Option Comment
  number_format : String
deriving DecidableEq, Repr

/-- `apply_font(cell, bold=False, color="00000000", name="Arial", size=10)`:
`cell.font = Font(bold=bold, color=color, name=name, size=size)`. -/
def apply_font (cell : Cell) (bold : Bool := false) (color : String := "00000000")
    (name : String := "Arial") (size : Int := 10) : Cell :=
  { cell with font := Font.make (some bold) (some color) (some name) (some size) }

/-- `apply_fill(cell, color)`:
`cell.fill = PatternFill(start_color=color, end_color=color, fill_type="solid")`. -/
def apply_fill (cell : Cell) (color : String) : Cell :=
  { cell with fill := PatternFill.make (some color) (some color) (some "solid") }

/-- `get_side(style="medium", color="000000")`: returns
`Side(style=style, color=color)`. -/
def get_side (style : String := "medium") (color : String := "000000") : Side :=
  Side.make (some style) (some color)

/-- `get_border(bottom=None, left=None, right=None, top=None)`: returns
`Border(bottom=bottom, left=left, right=right, top=top)`. -/
def get_border (bottom : Option Side := none) (left : Option Side := none)
    (right : Option Side := none) (top : Option Side := none) : Border :=
  Border.make bottom left right top

/-- `apply_center_alignment(cell)`: sets
`cell.alignment = Alignment(horizontal="center")` and returns
`cell.alignment`, i.e. the alignment now stored on the cell.  The state
passing returns the updated cell together with the returned value. -/
def apply_center_alignment (cell : Cell) : Cell × Alignment :=
  let c := { cell with alignment := Alignment.make (some "center") }
  (c, c.alignment)

/-- `apply_header_cell(cell)`:
`cell.alignment = apply_center_alignment(cell)` (the call mutates the
cell and the assignment re-stores the returned alignment), then
`cell.border = get_border(bottom=get_side())`, then
`cell.font = Font(bold=True)`. -/
def apply_header_cell (cell : Cell) : Cell :=
  let r := apply_center_alignment cell
  let c1 := { r.1 with alignment := r.2 }
  let c2 := { c1 with border := get_border (some get_side) }
  { c2 with font := Font.make (some true) }

/-- `add_comment(cell, comment, author)`:
`cell.comment = Comment(comment, author)`. -/
def add_comment (cell : Cell) (comment : String) (author : String) : Cell :=
  { cell with comment := some ⟨comment, author⟩ }

/-- `apply_number_format(cell, format="R$ #,##0.00")`:
`cell.number_format = format`. -/
def apply_number_format (cell : Cell) (format : String := "R$ #,##0.00") : Cell :=
  { cell with number_format := format }

/-- An exception raised by the underlying library (e.g. a malformed
color string or an unsupported border style rejected by a style
constructor, or an invalid file path in `load_workbook`). -/
structure PyErr where
  msg : String
deriving DecidableEq, Repr

/-- Exception-level model of `apply_font` (and of every `apply_*` helper
of the shape `cell.attr = Ctor(...)`): Python evaluates the constructor
call before the assignment, the module has no try/except, so the
constructor's outcome — a font or a raised exception — is threaded
through unchanged and on an exception the assignment never happens. -/
def apply_font_exc (mkFont : Except PyErr Font) (cell : Cell) : Except PyErr Cell :=
  mkFont.map fun f => { cell with font := f }

/-- Exception-level model of `apply_fill`, as for `apply_font_exc`. -/
def apply_fill_exc (mkFill : Except PyErr PatternFill) (cell : Cell) : Except PyErr Cell :=
  mkFill.map fun f => { cell with fill := f }

/-- Exception-level model of `load_wb`: the body is the single
expression `return load_workbook(filename=filename, data_only=data_only)`
with no try/except, so the library call's outcome is returned as is. -/
def load_wb_exc (load : Except PyErr (List (Option String))) :
    Except PyErr (List (Option String)) :=
  load

/-- A stored cell of an on-disk workbook file: either a formula cell
(formula text plus the cached value from the last evaluation) or a
literal value. -/
inductive StoredCell where
  | formula (text : String) (cached : Option String)
  | literal (v : Option String)
deriving DecidableEq, Repr

/-- Modelled from the spec: the underlying library's `load_workbook` is
not part of this repository.  Per the spec, loading reads the stored
cells; with the data-only option set, formula cells yield their cached
values, otherwise they yield the formula strings. -/
def load_workbook (file : List StoredCell) (data_only : Bool) : List (Option String) :=
  file.map fun c =>
    match c with
    | .formula t cached => if data_only then cached else some t
    | .literal v => v

/-- `load_wb(filename, data_only=False)`: returns
`load_workbook(filename=filename, data_only=data_only)`. -/
def load_wb (file : List StoredCell) (data_only : Bool := false) : List (Option String) :=
  load_workbook file data_only

end Xl

namespace Xl

/-- C1: for every cell, after `apply_header_cell` the cell
simultaneously has horizontal-center alignment, a border whose bottom
side is set (style "medium", color "000000") while left, right and top
are None, and a bold font. -/
theorem apply_header_cell_center_bottomBorder_bold (cell : Cell) :
    (apply_header_cell cell).alignment.horizontal = some "center" ∧
    (apply_header_cell cell).border =
      { bottom := some { style := some "medium", color := some "000000" },
        left := none, right := none, top := none } ∧
    (apply_header_cell cell).font.bold = some true := by
  refine ⟨rfl, rfl, rfl⟩

/-- C2: each `apply_*` helper sets exactly the expected attribute to the
style object constructed from its parameters: `apply_font` builds the
`Font`, `apply_fill` a solid `PatternFill` with both colors equal,
`add_comment` a `Comment(comment, author)`, and `apply_number_format`
stores the format string. -/
theorem apply_helpers_set_constructed_objects (cell : Cell) (bold : Bool)
    (color : String) (name : String) (size : Int) (fillColor : String)
    (text : String) (author : String) (format : String) :
    (apply_font cell bold color name size).font =
      Font.make (some bold) (some color) (some name) (some size) ∧
    (apply_fill cell fillColor).fill =
      PatternFill.make (some fillColor) (some fillColor) (some "solid") ∧
    (add_comment cell text author).comment = some (Comment.mk text author) ∧
    (apply_number_format cell format).number_format = format := by
  exact ⟨rfl, rfl, rfl, rfl⟩

/-- C3: the documented defaults: `apply_font` with only a cell uses name
"Arial", size 10, bold False and (ARGB) black color; `apply_number_format`
with only a cell uses "R$ #,##0.00"; `get_side` with no arguments uses
style "medium" and color "000000". -/
theorem default_parameters_match_documentation (cell : Cell) :
    (apply_font cell).font =
      Font.make (some false) (some "00000000") (some "Arial") (some 10) ∧
    (apply_number_format cell).number_format = "R$ #,##0.00" ∧
    get_side = Side.make (some "medium") (some "000000") := by
  exact ⟨rfl, rfl, rfl⟩

/-- C5: `get_border` returns a Border whose four fields equal the four
independently optional arguments, with every omitted side None; in
particular `get_border()` has all four sides None. -/
theorem get_border_fields (bottom : Option Side) (left : Option Side)
    (right : Option Side) (top : Option Side) :
    get_border bottom left right top =
      { bottom := bottom, left := left, right := right, top := top } ∧
    get_border = Border.mk none none none none := by
  exact ⟨rfl, rfl⟩

/-- C4: `load_wb` defaults `data_only` to False, and under
`data_only=True` a formula cell of the loaded workbook yields its cached
value while under the default it yields the formula string. -/
theorem load_wb_data_only (file : List StoredCell) (i : Nat) (t : String)
    (c : Option String) (h : file.get? i = some (StoredCell.formula t c)) :
    load_wb file = load_workbook file false ∧
    (load_wb file true).get? i = some c ∧
    (load_wb file false).get? i = some (some t) := by
  rw [List.get?_eq_getElem?] at h
  refine ⟨rfl, ?_, ?_⟩ <;>
    simp [load_wb, load_workbook, List.getElem?_map, h]

/-- Witness for C4 at a one-cell file holding the formula "=1+1" with
cached value "2". -/
theorem load_wb_data_only_witness :
    load_wb [StoredCell.formula "=1+1" (some "2")] =
      load_workbook [StoredCell.formula "=1+1" (some "2")] false ∧
    (load_wb [StoredCell.formula "=1+1" (some "2")] true).get? 0 = some (some "2") ∧
    (load_wb [StoredCell.formula "=1+1" (some "2")] false).get? 0 =
      some (some "=1+1") :=
  load_wb_data_only [StoredCell.formula "=1+1" (some "2")] 0 "=1+1" (some "2") rfl

/-- C6: `apply_center_alignment` stores an Alignment with horizontal
"center" on the cell, and its return value equals the alignment actually
stored on the cell after the call. -/
theorem apply_center_alignment_sets_and_returns (cell : Cell) :
    (apply_center_alignment cell).1.alignment = Alignment.make (some "center") ∧
    (apply_center_alignment cell).2 = (apply_center_alignment cell).1.alignment := by
  exact ⟨rfl, rfl⟩

/-- C7: each helper mutates only the style attributes it targets and
leaves the cell's value and every other attribute unchanged:
`apply_font` changes only the font, `apply_fill` only the fill,
`apply_center_alignment` only the alignment, `add_comment` only the
comment, `apply_number_format` only the number format, and
`apply_header_cell` (which targets alignment, border and font) leaves
value, fill, comment and number format unchanged; `get_side` and
`get_border` take no cell and are pure constructors. -/
theorem apply_helpers_frame (cell : Cell) (bold : Bool) (color : String)
    (name : String) (size : Int) (fillColor : String) (text : String)
    (author : String) (format : String) :
    ((apply_font cell bold color name size).value = cell.value ∧
      (apply_font cell bold color name size).fill = cell.fill ∧
      (apply_font cell bold color name size).border = cell.border ∧
      (apply_font cell bold color name size).alignment = cell.alignment ∧
      (apply_font cell bold color name size).comment = cell.comment ∧
      (apply_font cell bold color name size).number_format = cell.number_format) ∧
    ((apply_fill cell fillColor).value = cell.value ∧
      (apply_fill cell fillColor).font = cell.font ∧
      (apply_fill cell fillColor).border = cell.border ∧
      (apply_fill cell fillColor).alignment = cell.alignment ∧
      (apply_fill cell fillColor).comment = cell.comment ∧
      (apply_fill cell fillColor).number_format = cell.number_format) ∧
    ((apply_center_alignment cell).1.value = cell.value ∧
      (apply_center_alignment cell).1.font = cell.font ∧
      (apply_center_alignment cell).1.fill = cell.fill ∧
      (apply_center_alignment cell).1.border = cell.border ∧
      (apply_center_alignment cell).1.comment = cell.comment ∧
      (apply_center_alignment cell).1.number_format = cell.number_format) ∧
    ((add_comment cell text author).value = cell.value ∧
      (add_comment cell text author).font = cell.font ∧
      (add_comment cell text author).fill = cell.fill ∧
      (add_comment cell text author).border = cell.border ∧
      (add_comment cell text author).alignment = cell.alignment ∧
      (add_comment cell text author).number_format = cell.number_format) ∧
    ((apply_number_format cell format).value = cell.value ∧
      (apply_number_format cell format).font = cell.font ∧
      (apply_number_format cell format).fill = cell.fill ∧
      (apply_number_format cell format).border = cell.border ∧
      (apply_number_format cell format).alignment = cell.alignment ∧
      (apply_number_format cell format).comment = cell.comment) ∧
    ((apply_header_cell cell).value = cell.value ∧
      (apply_header_cell cell).fill = cell.fill ∧
      (apply_header_cell cell).comment = cell.comment ∧
      (apply_header_cell cell).number_format = cell.number_format) := by
  refine ⟨⟨rfl, rfl, rfl, rfl, rfl, rfl⟩, ⟨rfl, rfl, rfl, rfl, rfl, rfl⟩,
    ⟨rfl, rfl, rfl, rfl, rfl, rfl⟩, ⟨rfl, rfl, rfl, rfl, rfl, rfl⟩,
    ⟨rfl, rfl, rfl, rfl, rfl, rfl⟩, rfl, rfl, rfl, rfl⟩

/-- C8: no helper catches, wraps or translates exceptions: an exception
raised by the library constructor inside `apply_font` or `apply_fill`
propagates as exactly the same exception and no updated cell is ever
produced (the assignment never happens, the cell is unchanged), and
`load_wb` returns the library call's outcome — value or exception —
entirely unchanged. -/
theorem exceptions_propagate_unchanged (e : PyErr) (cell : Cell)
    (load : Except PyErr (List (Option String))) :
    apply_font_exc (Except.error e) cell = Except.error e ∧
    (∀ c2 : Cell, apply_font_exc (Except.error e) cell ≠ Except.ok c2) ∧
    apply_fill_exc (Except.error e) cell = Except.error e ∧
    (∀ c2 : Cell, apply_fill_exc (Except.error e) cell ≠ Except.ok c2) ∧
    load_wb_exc load = load := by
  refine ⟨rfl, ?_, rfl, ?_, rfl⟩ <;> intro c2 h <;> exact Except.noConfusion h

/-- C9: `apply_header_cell` sets the font to exactly `Font(bold=True)`:
name, size and color stay at the library default None rather than the
module's `apply_font` defaults ("Arial", 10, black), and the previous
font is fully replaced: the resulting font does not depend on it. -/
theorem apply_header_cell_font_library_defaults (cell : Cell) (f : Font) :
    (apply_header_cell cell).font = Font.make (some true) ∧
    (apply_header_cell cell).font.name = none ∧
    (apply_header_cell cell).font.size = none ∧
    (apply_header_cell cell).font.color = none ∧
    (apply_header_cell cell).font ≠ (apply_font cell true).font ∧
    (apply_header_cell { cell with font := f }).font = (apply_header_cell cell).font := by
  refine ⟨rfl, rfl, rfl, rfl, ?_, rfl⟩
  intro h
  exact Option.noConfusion (congrArg Font.name h)

/-- C10: every `apply_*` helper is idempotent for fixed arguments:
applying it twice in a row leaves the cell in the same state as applying
it once; in particular `apply_header_cell` twice equals once. -/
theorem apply_helpers_idempotent (cell : Cell) (bold : Bool) (color : String)
    (name : String) (size : Int) (fillColor : String) (format : String) :
    apply_font (apply_font cell bold color name size) bold color name size =
      apply_font cell bold color name size ∧
    apply_fill (apply_fill cell fillColor) fillColor = apply_fill cell fillColor ∧
    apply_center_alignment (apply_center_alignment cell).1 =
      apply_center_alignment cell ∧
    apply_number_format (apply_number_format cell format) format =
      apply_number_format cell format ∧
    apply_header_cell (apply_header_cell cell) = apply_header_cell cell := by
  exact ⟨rfl, rfl, rfl, rfl, rfl⟩

end Xl
